import Mathlib

/-!
Shallow embedding of the BM1398 ASIC driver (`src/hashsource_x19/src/bm1398_asic.c`
and `include/bm1398_asic.h`) and proofs about its register map, work-packet
assembly, PLL / baud encodings, enumeration result, boot verification and
nonce decoding.  Machine integers are modelled as `Nat` with explicit
`% 2 ^ 32` truncation where C `uint32_t` arithmetic can wrap; the mapped FPGA
window is a function from word index to 32-bit value; the UART environment
(which sends succeed) is an explicit oracle parameter.
-/

namespace BM1398

/-- The 5 KB MMIO window: 32-bit word index to stored 32-bit value. -/
abbrev Window := ℕ → ℕ

/-- A 32-bit store into the window (`regs[wordIndex] = v` on `uint32_t`). -/
def updateWord (w : Window) (wordIndex v : ℕ) : Window :=
  fun j => if j = wordIndex then v % 2 ^ 32 else w j

/-- `FPGA_REGISTER_MAP_SIZE` from `bm1398_asic.h`. -/
def FPGA_REGISTER_MAP_SIZE : ℕ := 110

/-- `fpga_register_map` from `bm1398_asic.c` lines 75-83.  The C initializer
lists 108 values; the array is declared with 110 entries, so C zero-fills
entries 108 and 109. -/
def fpga_register_map : List ℕ :=
  [0, 1, 2, 3, 4, 6, 7, 8, 9, 10, 11, 12, 13, 14, 15, 16,
   16, 32, 33, 34, 35, 36, 37, 38, 0, 48, 49, 60, 62, 63, 64, 65,
   66, 68, 69, 70, 71, 72, 73, 76, 77, 78, 80, 96, 97, 98, 99, 100,
   101, 102, 103, 104, 105, 106, 107, 108, 109, 110, 111, 112, 113, 114, 115, 116,
   117, 118, 119, 124, 125, 126, 127, 128, 129, 130, 132, 133, 134, 135, 136, 137,
   138, 139, 140, 141, 142, 143, 144, 145, 146, 147, 148, 149, 150, 151, 152, 153,
   154, 155, 156, 157, 158, 159, 164, 165, 166, 167, 168, 169,
   0, 0]

/-- `fpga_read_indirect` (bm1398_asic.c lines 89-101): an index outside
`0 .. FPGA_REGISTER_MAP_SIZE-1` prints a diagnostic and returns 0; otherwise
the window word at the mapped offset is returned.  The C `int` index is ℤ. -/
def fpga_read_indirect (w : Window) (logical_index : ℤ) : ℕ :=
  if logical_index < 0 ∨ (FPGA_REGISTER_MAP_SIZE : ℤ) ≤ logical_index then 0
  else w (fpga_register_map.getD logical_index.toNat 0)

/-- `fpga_write_indirect` (bm1398_asic.c lines 107-120): an index outside
`0 .. FPGA_REGISTER_MAP_SIZE-1` prints a diagnostic and returns without
touching the window; otherwise the mapped word is stored (then a barrier). -/
def fpga_write_indirect (w : Window) (logical_index : ℤ) (value : ℕ) : Window :=
  if logical_index < 0 ∨ (FPGA_REGISTER_MAP_SIZE : ℤ) ≤ logical_index then w
  else updateWord w (fpga_register_map.getD logical_index.toNat 0) value

/-- The FPGA boot-verification step of `bm1398_init` (bm1398_asic.c lines
160-186): read `0x080` and `0x088`; write `0x080 = 0x80808000`, sleep, write
`0x080 = 0x00808000`; if the initially read `0x088` was not `0x00009C40`,
force `0x088 = 0x00009C40`.  Byte offsets 0x080 and 0x088 are words 32, 34. -/
def bm1398_init_boot_verify (w : Window) : Window :=
  let reg_0x088 := w 34
  let w1 := updateWord w 32 0x80808000
  let w2 := updateWord w1 32 0x00808000
  if reg_0x088 ≠ 0x00009C40 then updateWord w2 34 0x00009C40 else w2

/-- Count of failed set-address sends in the `bm1398_enumerate_chips` loop
(bm1398_asic.c lines 425-444): `errors` is incremented for every chip `i`
whose `bm1398_set_chip_address` send fails; which sends fail is the UART
environment, modelled by the oracle `send_fails`. -/
def enumerate_errors (send_fails : ℕ → Bool) (num_chips : ℕ) : ℕ :=
  ((List.range num_chips).filter (fun i => send_fails i)).length

/-- Return value of `bm1398_enumerate_chips` (bm1398_asic.c lines 404-450):
-1 if the initial chain-inactive send fails, otherwise
`errors > 0 ? -1 : 0`. -/
def bm1398_enumerate_chips (chain_inactive_fails : Bool) (send_fails : ℕ → Bool)
    (num_chips : ℕ) : ℤ :=
  if chain_inactive_fails then -1
  else if 0 < enumerate_errors send_fails num_chips then -1 else 0

/-- C `uint32_t` decrement by one (wraps at zero), for the baud divisor
expression `base / (baud * 8) - 1` computed in unsigned arithmetic. -/
def u32_sub_one (x : ℕ) : ℕ := (x + 0xFFFFFFFF) % 2 ^ 32

/-- The branch condition of `bm1398_set_baud_rate` (bm1398_asic.c line 1042):
high-speed mode iff `baud_rate > 3000000`. -/
def baud_is_high_speed (baud_rate : ℕ) : Bool := decide (3000000 < baud_rate)

/-- The CLK_CTRL (ASIC register 0x18) value built by `bm1398_set_baud_rate`
(bm1398_asic.c lines 1034-1103): high-speed uses the 400 MHz base with the
bit-16 enable over base 0xF0000000, low-speed the 25 MHz base over
0xF0000400; the divisor is split into bits [11:8] and [4:0]. -/
def bm1398_set_baud_clk_ctrl (baud_rate : ℕ) : ℕ :=
  if 3000000 < baud_rate then
    let baud_div := u32_sub_one (400000000 / (baud_rate * 8))
    0xF0000000 ||| (((baud_div >>> 5) &&& 0xF) <<< 8) ||| (baud_div &&& 0x1F) |||
      0x00010000
  else
    let baud_div := u32_sub_one (25000000 / (baud_rate * 8))
    0xF0000400 ||| (((baud_div >>> 5) &&& 0xF) <<< 8) ||| (baud_div &&& 0x1F)

/-- PLL0 register value built by `bm1398_set_frequency` (bm1398_asic.c lines
1195-1199): base 0x40000000, postdiv2 in bits [2:0], refdiv in bits [6:4],
postdiv1 in bits [13:8], fbdiv in bits [27:16]. -/
def pll_register_value (refdiv_reg fbdiv_reg postdiv1_reg postdiv2_reg : ℕ) : ℕ :=
  0x40000000 ||| (postdiv2_reg &&& 0x7) ||| ((refdiv_reg &&& 0x7) <<< 4) |||
    ((postdiv1_reg &&& 0x3f) <<< 8) ||| ((fbdiv_reg &&& 0xfff) <<< 16)

/-- VCO frequency `25.0f / refdiv_actual * fbdiv_reg` (bm1398_asic.c line
1183) with `refdiv_actual = refdiv_reg + 1`; exact in ℚ for the values the
driver reaches (the float computation is exact there too). -/
def pll_vco_mhz (refdiv_reg fbdiv_reg : ℕ) : ℚ :=
  25 / ((refdiv_reg : ℚ) + 1) * (fbdiv_reg : ℚ)

/-- Divider selection of `bm1398_set_frequency` (bm1398_asic.c lines
1166-1177): 525 MHz gets `(refdiv_reg, fbdiv_reg, postdiv1_reg,
postdiv2_reg) = (0, 84, 1, 0)`; any other frequency prints a warning and
falls through to the very same values. -/
def set_frequency_params (freq_mhz : ℕ) : ℕ × ℕ × ℕ × ℕ :=
  if freq_mhz = 525 then (0, 84, 1, 0) else (0, 84, 1, 0)

/-- The PLL0 value `bm1398_set_frequency` programs, or `none` when the
function returns -1 at the VCO range check (bm1398_asic.c lines 1163-1215):
if VCO ∈ [2400, 3200] bit 28 is set; else if VCO < 1600 or VCO > 3200 the
function errors out; otherwise the base value is broadcast to register
0x08. -/
def bm1398_set_frequency (freq_mhz : ℕ) : Option ℕ :=
  match set_frequency_params freq_mhz with
  | (refdiv_reg, fbdiv_reg, postdiv1_reg, postdiv2_reg) =>
    let vco := pll_vco_mhz refdiv_reg fbdiv_reg
    let base := pll_register_value refdiv_reg fbdiv_reg postdiv1_reg postdiv2_reg
    if 2400 ≤ vco ∧ vco ≤ 3200 then some (base ||| 0x10000000)
    else if vco < 1600 ∨ 3200 < vco then none
    else some base

/-- Little-endian 32-bit load of four packet bytes (the `memcpy` into a
`uint32_t` on the little-endian ARM host). -/
def le_word (b0 b1 b2 b3 : ℕ) : ℕ :=
  b0 % 256 + b1 % 256 * 2 ^ 8 + b2 % 256 * 2 ^ 16 + b3 % 256 * 2 ^ 24

/-- `__builtin_bswap32`: reverse the four bytes of a 32-bit word. -/
def bswap32 (x : ℕ) : ℕ :=
  x % 256 * 2 ^ 24 + x / 2 ^ 8 % 256 * 2 ^ 16 + x / 2 ^ 16 % 256 * 2 ^ 8 +
    x / 2 ^ 24 % 256

/-- Split a byte list into little-endian 32-bit words (the packet viewed as
`uint32_t *words`). -/
def le_words : List ℕ → List ℕ
  | b0 :: b1 :: b2 :: b3 :: rest => le_word b0 b1 b2 b3 :: le_words rest
  | _ => []

/-- The bytes of a `uint32_t` stored in native (little-endian) order. -/
def u32_le_bytes (x : ℕ) : List ℕ :=
  [x % 256, x / 2 ^ 8 % 256, x / 2 ^ 16 % 256, x / 2 ^ 24 % 256]

/-- The 148-byte `work_packet_t` assembled by `bm1398_send_work`
(bm1398_asic.c lines 1404-1425): `work_type = 0x01`, `chain_id = chain |
0x80`, two reserved zero bytes, `work_id << 3` stored native-endian, the
12 header bytes, then the four 32-byte midstates. -/
def work_packet_bytes (chain work_id : ℕ) (header12 : List ℕ)
    (midstates : List (List ℕ)) : List ℕ :=
  0x01 :: (chain % 256 ||| 0x80) :: 0x00 :: 0x00 ::
    (u32_le_bytes ((work_id <<< 3) % 2 ^ 32) ++ header12 ++ midstates.flatten)

/-- The 37 byte-swapped words `bm1398_send_work` pushes into the work FIFO
at logical index 16 (bm1398_asic.c lines 1441-1475). -/
def bm1398_send_work_words (chain work_id : ℕ) (header12 : List ℕ)
    (midstates : List (List ℕ)) : List ℕ :=
  (le_words (work_packet_bytes chain work_id header12 midstates)).map bswap32

/-- `nonce_response_t` from `bm1398_asic.h` lines 147-153. -/
structure nonce_response_t where
  nonce : ℕ
  chain_id : ℕ
  chip_id : ℕ
  core_id : ℕ
  work_id : ℕ

/-- The decode of `bm1398_read_nonce` (bm1398_asic.c lines 1520-1540) from
the two FIFO words: word 0 is the nonce, word 1 packs chain in bits
[31:24], chip in [23:16], core in [15:8], work_id in [7:0]. -/
def bm1398_read_nonce (nonce_value nonce_meta : ℕ) : nonce_response_t :=
  { nonce := nonce_value % 2 ^ 32
    chain_id := (nonce_meta >>> 24) &&& 0xFF
    chip_id := (nonce_meta >>> 16) &&& 0xFF
    core_id := (nonce_meta >>> 8) &&& 0xFF
    work_id := nonce_meta &&& 0xFF }

theorem le_words_length : ∀ l : List ℕ, (le_words l).length = l.length / 4
  | [] => by simp [le_words]
  | [_] => by simp [le_words]
  | [_, _] => by simp [le_words]
  | [_, _, _] => by simp [le_words]
  | _ :: _ :: _ :: _ :: rest => by
      simp only [le_words, List.length_cons, le_words_length rest]
      omega

theorem set_frequency_params_eq (freq_mhz : ℕ) :
    set_frequency_params freq_mhz = (0, 84, 1, 0) := by
  unfold set_frequency_params
  split <;> rfl

theorem bm1398_set_frequency_eq (freq_mhz : ℕ) :
    bm1398_set_frequency freq_mhz = some 0x40540100 := by
  unfold bm1398_set_frequency
  rw [set_frequency_params_eq]
  norm_num [pll_vco_mhz]
  rfl

/-- C1 counterexample: in the source table logical index 16 resolves to word
16 but logical index 17 resolves to word 32 (byte offset 0x080); on the
identity window the two indices read different words, and a write through
index 17 lands on word 32, leaving word 16 untouched. -/
theorem C1_counterexample :
    fpga_read_indirect (fun i => i) 16 = 16 ∧
    fpga_read_indirect (fun i => i) 17 = 32 ∧
    fpga_write_indirect (fun _ => 0) 17 5 16 = 0 ∧
    fpga_write_indirect (fun _ => 0) 17 5 32 = 5 := by
  refine ⟨rfl, rfl, rfl, rfl⟩

/-- C1 amended: `fpga_register_map[17] = 32`, not 16: indirect accesses with
index 17 go to window word 32 (byte offset 0x080), while index 16 accesses
word 16 (byte offset 0x040); the two indices never touch the same word. -/
theorem C1_amended (w : Window) (v : ℕ) :
    fpga_read_indirect w 17 = w 32 ∧
    fpga_write_indirect w 17 v = updateWord w 32 v ∧
    fpga_read_indirect w 16 = w 16 ∧
    fpga_write_indirect w 16 v = updateWord w 16 v := by
  refine ⟨rfl, rfl, rfl, rfl⟩

/-- C2 counterexample: for the literal input `type=0x01, chain=0, work_id=7,
header12 = 00..0B, midstate = 00..1F` repeated, the 5th post-swap word (the
word of header bytes 8..11) is 0x08090A0B, not 0x00000038. -/
theorem C2_counterexample :
    (bm1398_send_work_words 0 7 (List.range 12)
        (List.replicate 4 (List.range 32))).getD 4 0 = 0x08090A0B ∧
    (bm1398_send_work_words 0 7 (List.range 12)
        (List.replicate 4 (List.range 32))).getD 4 0 ≠ 0x00000038 := by
  refine ⟨by decide, by decide⟩

/-- C2 amended: the work packet is exactly 148 bytes (37 32-bit words), and
for the literal input the first post-swap word is 0x01800000 while the 2nd
post-swap word — the work_id field 7 << 3 byte-swapped — is 0x38000000. -/
theorem C2_amended (chain work_id : ℕ) (header12 : List ℕ)
    (midstates : List (List ℕ)) (h1 : header12.length = 12)
    (h2 : midstates.map List.length = [32, 32, 32, 32]) :
    (work_packet_bytes chain work_id header12 midstates).length = 148 ∧
    (le_words (work_packet_bytes chain work_id header12 midstates)).length = 37 ∧
    (bm1398_send_work_words 0 7 (List.range 12)
        (List.replicate 4 (List.range 32))).getD 0 0 = 0x01800000 ∧
    (bm1398_send_work_words 0 7 (List.range 12)
        (List.replicate 4 (List.range 32))).getD 1 0 = 0x38000000 := by
  have hlen : (work_packet_bytes chain work_id header12 midstates).length = 148 := by
    simp [work_packet_bytes, u32_le_bytes, List.length_flatten, h1, h2]
  refine ⟨hlen, ?_, by decide, by decide⟩
  rw [le_words_length, hlen]

/-- C2 witness: the amended statement at the literal input of the claim. -/
theorem C2_witness :
    (work_packet_bytes 0 7 (List.range 12)
        (List.replicate 4 (List.range 32))).length = 148 ∧
    (le_words (work_packet_bytes 0 7 (List.range 12)
        (List.replicate 4 (List.range 32)))).length = 37 ∧
    (bm1398_send_work_words 0 7 (List.range 12)
        (List.replicate 4 (List.range 32))).getD 0 0 = 0x01800000 ∧
    (bm1398_send_work_words 0 7 (List.range 12)
        (List.replicate 4 (List.range 32))).getD 1 0 = 0x38000000 :=
  C2_amended 0 7 (List.range 12) (List.replicate 4 (List.range 32))
    (by decide) (by decide)

/-- C3 counterexample: for the unsupported target 600 MHz the function does
not fail: it programs the PLL with the substitute 525 MHz value
0x40540100 and reports success. -/
theorem C3_counterexample :
    bm1398_set_frequency 600 = some 0x40540100 ∧
    bm1398_set_frequency 600 ≠ none := by
  have h := bm1398_set_frequency_eq 600
  exact ⟨h, by simp [h]⟩

/-- C3 amended: for every target frequency — supported or not —
`bm1398_set_frequency` programs the same 525 MHz PLL configuration
0x40540100 and succeeds; an unsupported frequency only prints a warning
before falling back to the 525 MHz dividers. -/
theorem C3_amended (freq_mhz : ℕ) :
    bm1398_set_frequency freq_mhz = some 0x40540100 :=
  bm1398_set_frequency_eq freq_mhz

/-- C4 counterexample: with exactly one failing set-address send (k = 1) the
function returns -1, not the failure count 1. -/
theorem C4_counterexample :
    enumerate_errors (fun i => i == 0) 114 = 1 ∧
    bm1398_enumerate_chips false (fun i => i == 0) 114 = -1 ∧
    bm1398_enumerate_chips false (fun i => i == 0) 114 ≠ 1 := by
  refine ⟨by decide, by decide, by decide⟩

/-- C4 amended: the function counts failing set-address sends but only logs
the count: it returns -1 when at least one send failed and 0 when none
did. -/
theorem C4_amended (send_fails : ℕ → Bool) (num_chips : ℕ) :
    (0 < enumerate_errors send_fails num_chips →
      bm1398_enumerate_chips false send_fails num_chips = -1) ∧
    (enumerate_errors send_fails num_chips = 0 →
      bm1398_enumerate_chips false send_fails num_chips = 0) := by
  constructor <;> intro h <;> simp [bm1398_enumerate_chips, h]

/-- C4 witness: the amended statement applied with one failing send. -/
theorem C4_witness :
    bm1398_enumerate_chips false (fun i => i == 0) 114 = -1 :=
  (C4_amended (fun i => i == 0) 114).1 (by decide)

/-- C5: after the boot-verification toggle of `bm1398_init`, direct register
0x080 (window word 32) holds 0x00808000, whatever the initial window
state. -/
theorem C5_boot_verify (w : Window) :
    bm1398_init_boot_verify w 32 = 0x00808000 := by
  unfold bm1398_init_boot_verify
  split <;> simp [updateWord]

/-- C6: for the 525 MHz target `bm1398_set_frequency` programs PLL0 with
exactly 0x40540100: fbdiv = 84 in bits [27:16], encoded postdiv1 = 1 in
bits [13:8], encoded refdiv = 0 in bits [6:4], encoded postdiv2 = 0 in bits
[2:0], and the VCO-range bit 28 clear (VCO = 2100 MHz). -/
theorem C6_pll_525 :
    bm1398_set_frequency 525 = some 0x40540100 ∧
    pll_vco_mhz 0 84 = 2100 ∧
    (0x40540100 : ℕ) >>> 16 &&& 0xFFF = 84 ∧
    (0x40540100 : ℕ) >>> 8 &&& 0x3F = 1 ∧
    (0x40540100 : ℕ) >>> 4 &&& 0x7 = 0 ∧
    (0x40540100 : ℕ) &&& 0x7 = 0 ∧
    (0x40540100 : ℕ) >>> 28 &&& 0x1 = 0 := by
  exact ⟨bm1398_set_frequency_eq 525, by norm_num [pll_vco_mhz], by decide,
    by decide, by decide, by decide, by decide⟩

/-- C7: `bm1398_set_baud_rate` builds CLK_CTRL = 0xF000041A for 115200 baud
(divisor 26 from the 25 MHz base), 0xF0010003 for 12 MHz (divisor 3 from
the 400 MHz base with the bit-16 enable), and a baud rate of exactly
3000001 selects high-speed mode. -/
theorem C7_baud :
    bm1398_set_baud_clk_ctrl 115200 = 0xF000041A ∧
    bm1398_set_baud_clk_ctrl 12000000 = 0xF0010003 ∧
    baud_is_high_speed 3000001 = true := by
  refine ⟨by decide, by decide, by decide⟩

/-- C8 counterexample: the metadata word 0x10000000 decodes to chain_id =
16, which is not < 16: the chain field is 8 bits wide and is not reduced
below 16. -/
theorem C8_counterexample :
    (bm1398_read_nonce 0xDEADBEEF 0x10000000).chain_id = 16 ∧
    ¬ (bm1398_read_nonce 0xDEADBEEF 0x10000000).chain_id < 16 := by
  refine ⟨by decide, by decide⟩

/-- C8 amended: every nonce record produced by `bm1398_read_nonce` satisfies
chain_id < 256 (the chain field is the full byte in bits [31:24]); the
bound 16 does not hold. -/
theorem C8_amended (nonce_value nonce_meta : ℕ) :
    (bm1398_read_nonce nonce_value nonce_meta).chain_id < 256 := by
  have h : (nonce_meta >>> 24) &&& 0xFF ≤ 0xFF := Nat.and_le_right
  simp only [bm1398_read_nonce]
  omega

/-- C9 counterexample: on an all-zero window the out-of-range read at index
110 returns 0, exactly the value of a successful in-range read of logical
index 0 — the caller cannot distinguish the rejected access from a
successful one by the result. -/
theorem C9_counterexample :
    fpga_read_indirect (fun _ => 0) 110 = 0 ∧
    fpga_read_indirect (fun _ => 0) 0 = 0 := by
  refine ⟨rfl, rfl⟩

/-- C9 amended: an out-of-range logical index is rejected, but the only
caller-visible result is the value 0 from `fpga_read_indirect` (the same as
a successful read of a zero-valued register) and no result at all from
`fpga_write_indirect`: the error is a printed diagnostic, not a
distinguishable error result. -/
theorem C9_amended (w : Window) (idx : ℤ)
    (h : idx < 0 ∨ (FPGA_REGISTER_MAP_SIZE : ℤ) ≤ idx) :
    fpga_read_indirect w idx = 0 := by
  unfold fpga_read_indirect
  rw [if_pos h]

/-- C9 witness: the amended statement at index 110 on a nonzero window. -/
theorem C9_witness : fpga_read_indirect (fun _ => 7) 110 = 0 :=
  C9_amended (fun _ => 7) 110 (Or.inr (by decide))

/-- C10: for every logical index outside 0..109 and every window state,
`fpga_write_indirect` leaves the whole window unchanged and
`fpga_read_indirect` returns 0 (being pure, it modifies nothing): a
rejected indirect access never performs a partial write. -/
theorem C10_invalid_index (w : Window) (idx : ℤ) (v : ℕ)
    (h : idx < 0 ∨ (FPGA_REGISTER_MAP_SIZE : ℤ) ≤ idx) :
    fpga_write_indirect w idx v = w ∧ fpga_read_indirect w idx = 0 := by
  unfold fpga_write_indirect fpga_read_indirect
  rw [if_pos h, if_pos h]
  exact ⟨rfl, rfl⟩

/-- C10 witness: the statement at index -1 on a concrete window. -/
theorem C10_witness :
    fpga_write_indirect (fun _ => 9) (-1) 5 = (fun _ => 9) ∧
    fpga_read_indirect (fun _ => 9) (-1) = 0 :=
  C10_invalid_index (fun _ => 9) (-1) 5 (Or.inl (by decide))

end BM1398
